import Mathlib

/-!
# Verification of the gRPC-USDT rate-ingestion service

Shallow embedding of the core of the gRPC-USDT repository:

* the rate-ingestion pipeline `GetRateFromExchange` and its helper
  `processOrder` (internal/service),
* the repository lifecycle `NewStorage` / `Migrate` (internal/storage),
* the shutdown wait of `HandleSignals` and the `HealthService`
  (internal/utils).

`strconv.ParseFloat(s, 64)` is modelled over its whole accepted surface
(decimal and hexadecimal numerals, underscores, `Inf`/`NaN`, `ErrRange`
overflow); the pipeline never computes with the parsed values, it only
passes them through, so an accepted finite value is kept exact in the
scaled-decimal type `DecValue` (an integer numerator over a power of
ten), with `DecValue.toRat` giving the rational value.  External
collaborators (HTTP client, JSON decoder, SQL driver, migration runner)
are modelled as environment records whose fields give the outcome each
collaborator would produce, exactly at the point where the Go code
consults them.
-/

deriving instance DecidableEq for Except

namespace GRPCUSDT

/-! ## Exact decimal values

`DecValue` represents `num / 10 ^ exp`.  Every finite decimal numeral the
upstream feed can carry is represented exactly; the pipeline never does
arithmetic on the values, it only passes them through. -/

structure DecValue where
  num : Int
  exp : Nat
deriving DecidableEq

/-- The rational value denoted by a `DecValue`. -/
def DecValue.toRat (d : DecValue) : ℚ := (d.num : ℚ) / (10 : ℚ) ^ d.exp

/-! ## Model of strconv.ParseFloat(s, 64)

`none` models a non-nil Go error (syntax error or `ErrRange`); `some`
models a nil error.  The full accepted surface is covered: optional sign;
decimal mantissa with optional fraction dot and optional `e`/`E` decimal
exponent; hexadecimal mantissa with mandatory `p`/`P` binary exponent;
the special values `Inf`/`Infinity` (optionally signed) and `NaN`,
case-insensitively; and underscores between digits as in Go literals
(validated exactly as Go's `underscoreOK`).  A well-formed number whose
magnitude rounds to `±Inf` — that is, at least `2^1024 - 2^970`, the
float64 round-to-nearest-even overflow boundary — is an `ErrRange`
failure, as in Go; Go's pre-rounding cutoffs (decimal-point position
beyond 310, hex magnitude bound) are mirrored so the classification
agrees with Go on every input.  The one abstraction: a finite accepted
value is kept exact (as a `DecValue`) instead of being rounded to the
nearest binary float64, and a decimal underflow keeps its exact tiny
value where Go returns 0 with a nil error — the success/failure
classification is identical, only in-range representable values are
idealised. -/

/-- The result of a nil-error `strconv.ParseFloat`: a finite value
(kept exact), an infinity, or NaN. -/
inductive GoFloat where
  | finite (v : DecValue)
  | posInf
  | negInf
  | nan
deriving DecidableEq

def digitVal (c : Char) : Option Nat :=
  if c.isDigit then some (c.toNat - 48) else none

/-- Hexadecimal digit value. -/
def hexDigitVal (c : Char) : Option Nat :=
  if c.isDigit then some (c.toNat - 48)
  else if 'a' ≤ c ∧ c ≤ 'f' then some (c.toNat - 87)
  else if 'A' ≤ c ∧ c ≤ 'F' then some (c.toNat - 55)
  else none

/-- Value of a non-empty all-digit character list, most significant first. -/
def parseNatDigits (cs : List Char) : Option Nat :=
  match cs with
  | [] => none
  | _ => cs.foldlM (fun a c => (digitVal c).map (fun d => a * 10 + d)) 0

/-- Value of a non-empty all-hex-digit character list. -/
def parseHexNat (cs : List Char) : Option Nat :=
  match cs with
  | [] => none
  | _ => cs.foldlM (fun a c => (hexDigitVal c).map (fun d => a * 16 + d)) 0

/-- Strip an optional leading sign; `true` means negative. -/
def stripSign (cs : List Char) : Bool × List Char :=
  match cs with
  | '-' :: r => (true, r)
  | '+' :: r => (false, r)
  | r => (false, r)

/-- Split at the first `e`/`E` marker, if any. -/
def splitExp (cs : List Char) : List Char × Option (List Char) :=
  match cs.span (fun c => c != 'e' && c != 'E') with
  | (m, []) => (m, none)
  | (m, _ :: rest) => (m, some rest)

/-- Split at the first `p`/`P` marker, if any. -/
def splitPExp (cs : List Char) : List Char × Option (List Char) :=
  match cs.span (fun c => c != 'p' && c != 'P') with
  | (m, []) => (m, none)
  | (m, _ :: rest) => (m, some rest)

/-- Split a mantissa at its first `.`, keeping both digit groups. -/
def splitDot (cs : List Char) : List Char × List Char :=
  match cs.span (fun c => c != '.') with
  | (ip, []) => (ip, [])
  | (ip, _ :: fp) => (ip, fp)

/-- Loop of Go's `underscoreOK`: `saw` is `^` at the start, `0` after a
digit or base prefix, `_` after an underscore, `!` otherwise. -/
def underscoreLoop (hex : Bool) : Char → List Char → Bool
  | saw, [] => saw != '_'
  | saw, c :: rest =>
    if c.isDigit || (hex && 'a' ≤ c.toLower && c.toLower ≤ 'f') then
      underscoreLoop hex '0' rest
    else if c == '_' then
      if saw != '0' then false else underscoreLoop hex '_' rest
    else if saw == '_' then false
    else underscoreLoop hex '!' rest

/-- Go's `underscoreOK`: underscores may appear only between digits or
between a base prefix and a digit. -/
def underscoreOK (cs0 : List Char) : Bool :=
  let cs1 := (stripSign cs0).2
  match cs1 with
  | '0' :: c :: r =>
    if c == 'x' || c == 'X' then underscoreLoop true '0' r
    else if c == 'b' || c == 'B' || c == 'o' || c == 'O' then
      underscoreLoop false '0' r
    else underscoreLoop false '^' cs1
  | _ => underscoreLoop false '^' cs1

/-- Go's `special`: the whole input is `NaN` (unsigned) or an optionally
signed `Inf`/`Infinity`, case-insensitively. -/
def parseSpecial (cs : List Char) : Option GoFloat :=
  if cs.map Char.toLower == "nan".toList then some .nan
  else
    let (neg, r) := stripSign cs
    let l := r.map Char.toLower
    if l == "inf".toList || l == "infinity".toList then
      some (if neg then .negInf else .posInf)
    else none

/-- Magnitudes at least this bound round to `±Inf` in float64
(round-to-nearest-even): `(2^54 - 1) * 2^970`. -/
def float64MaxBound : Nat := 2 ^ 1024 - 2 ^ 970

/-- Whether the exact decimal value `m * 10^E` reaches the overflow
boundary. -/
def decOverflows (m : Nat) (E : Int) : Bool :=
  if 0 ≤ E then m * 10 ^ E.toNat ≥ float64MaxBound
  else m ≥ float64MaxBound * 10 ^ E.natAbs

/-- The exact `DecValue` for `±(m * 10^E)`. -/
def mkDecValue (neg : Bool) (m : Nat) (E : Int) : DecValue :=
  let n : Int := if neg then -(m : Int) else (m : Int)
  if 0 ≤ E then ⟨n * (10 : Int) ^ E.toNat, 0⟩ else ⟨n, E.natAbs⟩

/-- Classify a parsed decimal: `m` the mantissa digits as a number,
`sigLen` its count of significant digits, `E` the decimal exponent, so
the value is `m * 10^E` and its decimal point sits at `sigLen + E`.  As
in Go: point position above 310 is `ErrRange`; in the boundary band the
exact magnitude is compared against the float64 overflow bound. -/
def decFinish (neg : Bool) (m : Nat) (sigLen : Nat) (E : Int) :
    Option GoFloat :=
  if m = 0 then some (.finite ⟨0, 0⟩)
  else
    let dp : Int := (sigLen : Int) + E
    if dp > 310 then none
    else if 309 ≤ dp then
      if decOverflows m E then none
      else some (.finite (mkDecValue neg m E))
    else some (.finite (mkDecValue neg m E))

/-- Decimal branch: `digits[.digits]` with at least one digit, then an
optional `e`/`E` exponent. -/
def parseDecFloat (neg : Bool) (cs : List Char) : Option GoFloat := do
  let (mantChars, expChars) := splitExp cs
  let (intPart, fracPart) := splitDot mantChars
  if intPart.isEmpty && fracPart.isEmpty then none
  else do
    let i ← if intPart.isEmpty then some 0 else parseNatDigits intPart
    let f ← if fracPart.isEmpty then some 0 else parseNatDigits fracPart
    let eInt : Int ←
      match expChars with
      | none => some 0
      | some ecs =>
        let (eneg, ds) := stripSign ecs
        (parseNatDigits ds).map
          (fun e => if eneg then -(e : Int) else (e : Int))
    let m := i * 10 ^ fracPart.length + f
    let sigLen :=
      ((intPart ++ fracPart).dropWhile (fun c => c == '0')).length
    decFinish neg m sigLen (eInt - fracPart.length)

/-- Whether the exact value `H * 2^k` reaches the overflow boundary. -/
def hexOverflows (H : Nat) (k : Int) : Bool :=
  if 0 ≤ k then H * 2 ^ k.toNat ≥ float64MaxBound
  else H ≥ float64MaxBound * 2 ^ k.natAbs

/-- The exact `DecValue` for `±(H * 2^k)` (dyadics are exact decimals:
`1/2^j = 5^j/10^j`). -/
def mkHexValue (neg : Bool) (H : Nat) (k : Int) : DecValue :=
  let n : Int := if neg then -(H : Int) else (H : Int)
  if 0 ≤ k then ⟨n * (2 : Int) ^ k.toNat, 0⟩
  else ⟨n * (5 : Int) ^ k.natAbs, k.natAbs⟩

/-- Classify a parsed hex float of value `H * 2^k` with `sigLen`
significant hex digits, so the magnitude lies in
`[2^(4*sigLen + k - 4), 2^(4*sigLen + k))`: beyond the band the
classification is forced, inside it the exact magnitude is compared
against the float64 overflow bound. -/
def hexFinish (neg : Bool) (H : Nat) (sigLen : Nat) (k : Int) :
    Option GoFloat :=
  if H = 0 then some (.finite ⟨0, 0⟩)
  else
    let bound : Int := (4 * sigLen : Int) + k
    if bound ≥ 1028 then none
    else if bound ≤ 1023 then some (.finite (mkHexValue neg H k))
    else if hexOverflows H k then none
    else some (.finite (mkHexValue neg H k))

/-- Hexadecimal branch (after the `0x`/`0X` prefix): hex
`digits[.digits]` with at least one digit and a mandatory `p`/`P`
decimal-written binary exponent. -/
def parseHexFloat (neg : Bool) (cs : List Char) : Option GoFloat := do
  let (mantChars, expChars) := splitPExp cs
  match expChars with
  | none => none
  | some ecs =>
    let (intPart, fracPart) := splitDot mantChars
    if intPart.isEmpty && fracPart.isEmpty then none
    else do
      let i ← if intPart.isEmpty then some 0 else parseHexNat intPart
      let f ← if fracPart.isEmpty then some 0 else parseHexNat fracPart
      let (eneg, ds) := stripSign ecs
      let e ← parseNatDigits ds
      let eInt : Int := if eneg then -(e : Int) else (e : Int)
      let H := i * 16 ^ fracPart.length + f
      let sigLen :=
        ((intPart ++ fracPart).dropWhile (fun c => c == '0')).length
      hexFinish neg H sigLen (eInt - 4 * fracPart.length)

/-- Model of `strconv.ParseFloat(s, 64)`: `none` is a non-nil error. -/
def parseFloat (s : String) : Option GoFloat :=
  let cs := s.toList
  match parseSpecial cs with
  | some f => some f
  | none =>
    if cs.any (fun c => c == '_') && !underscoreOK cs then none
    else
      let cs2 := cs.filter (fun c => c != '_')
      let (neg, cs3) := stripSign cs2
      match cs3 with
      | '0' :: x :: rest =>
        if x == 'x' || x == 'X' then parseHexFloat neg rest
        else parseDecFloat neg cs3
      | _ => parseDecFloat neg cs3

/-! ## processOrder (internal/service)

```go
func processOrder(order []string) (price, volume float64, err error) {
    if len(order) < 2 { return 0, 0, fmt.Errorf("invalid order format") }
    price, err = strconv.ParseFloat(order[0], 64)
    if err != nil { return 0, 0, fmt.Errorf("price parsing error: %w", err) }
    volume, err = strconv.ParseFloat(order[1], 64)
    if err != nil { return 0, 0, fmt.Errorf("volume parsing error: %w", err) }
    return price, volume, nil
}
```
Error strings keep the Go prefixes; the wrapped strconv text is dropped. -/
def processOrder (order : List String) : Except String (GoFloat × GoFloat) :=
  match order with
  | p :: v :: _ =>
    match parseFloat p with
    | none => .error "price parsing error"
    | some price =>
      match parseFloat v with
      | none => .error "volume parsing error"
      | some volume => .ok (price, volume)
  | _ => .error "invalid order format"

/-! ## GetRateFromExchange (internal/service)

The pipeline talks to three collaborators: the HTTP client (`Do`), the
JSON decoder, and the storage (`SaveRate`).  `PipelineEnv` records the
outcome each one would produce when the Go code consults it, plus the
monotone wall-clock readings (`tFetchStart` at entry, `tNow` for the
`time.Now()` taken after extraction, `tReturn` at return).  The run is
instrumented: `RunTrace` records the returned pair `(resp, err)` as Go
returns it, whether body decoding was reached, the `SaveRate` calls made,
and the rows actually persisted. -/

/-- models.BinanceDepthResponse (internal/models). -/
structure BinanceDepthResponse where
  lastUpdateId : Int
  bids : List (List String)
  asks : List (List String)
deriving DecidableEq

/-- The decoded view of an upstream HTTP response: status line and the
outcome `json.Decoder.Decode` would produce on its body. -/
structure HTTPResponse where
  statusCode : Nat
  status : String
  bodyDecode : Except String BinanceDepthResponse
deriving DecidableEq

/-- One call to `storage.SaveRate(ask, bid, askAmount, bidAmount, ts)`. -/
structure SaveCall where
  ask : GoFloat
  bid : GoFloat
  askAmount : GoFloat
  bidAmount : GoFloat
  ts : Nat
deriving DecidableEq

/-- proto.GetRateFromExchangeResponse; `timestamp` is the clock reading
that Go formats with `time.RFC3339`. -/
structure RateResponse where
  success : Bool
  ask : GoFloat
  bid : GoFloat
  askAmount : GoFloat
  bidAmount : GoFloat
  timestamp : Nat
deriving DecidableEq

/-- Environment of one `GetRateFromExchange` invocation. -/
structure PipelineEnv where
  createReqErr : Option String
  fetchResult : Except String HTTPResponse
  saveRateErr : Option String
  tFetchStart : Nat
  tNow : Nat
  tReturn : Nat

/-- Instrumented result of one invocation: `resp`/`err` are the two Go
return values; `decodeAttempted` is whether `Decode` was reached;
`saveCalls` are the `SaveRate` invocations; `persisted` the rows the
storage actually kept (a failed `SaveRate` persists nothing). -/
structure RunTrace where
  resp : Option RateResponse
  err : Option String
  decodeAttempted : Bool
  saveCalls : List SaveCall
  persisted : List SaveCall
deriving DecidableEq

def httpStatusOK : Nat := 200

/-- internal/service `GetRateFromExchange`, step for step:
request construction, `httpClient.Do`, status check, body decode,
empty-book check, `processOrder` on `Asks[0]` then `Bids[0]` (note the Go
variable names: the volume of `Asks[0]` is `bidVolume` and the volume of
`Bids[0]` is `askVolume`), `time.Now()`, `SaveRate`, response assembly. -/
def GetRateFromExchange (env : PipelineEnv) : RunTrace :=
  match env.createReqErr with
  | some e => ⟨none, some ("create request failed: " ++ e), false, [], []⟩
  | none =>
  match env.fetchResult with
  | .error e => ⟨none, some ("fetch rates failed: " ++ e), false, [], []⟩
  | .ok resp =>
    if resp.statusCode ≠ httpStatusOK then
      ⟨none, some ("binance API returned status: " ++ resp.status), false, [], []⟩
    else
      match resp.bodyDecode with
      | .error e => ⟨none, some ("decode response failed: " ++ e), true, [], []⟩
      | .ok depth =>
        if depth.asks.length = 0 ∨ depth.bids.length = 0 then
          ⟨none, some "empty response from binance", true, [], []⟩
        else
          match processOrder (depth.asks.headD []) with
          | .error e => ⟨none, some ("ask processing failed: " ++ e), true, [], []⟩
          | .ok (bestAsk, bidVolume) =>
            match processOrder (depth.bids.headD []) with
            | .error e => ⟨none, some ("bid processing failed: " ++ e), true, [], []⟩
            | .ok (bestBid, askVolume) =>
              let timestamp := env.tNow
              let call : SaveCall := ⟨bestAsk, bestBid, askVolume, bidVolume, timestamp⟩
              match env.saveRateErr with
              | some e =>
                ⟨none, some ("save rate failed: " ++ e), true, [call], []⟩
              | none =>
                ⟨some ⟨true, bestAsk, bestBid, askVolume, bidVolume, timestamp⟩,
                 none, true, [call], [call]⟩

/-! ## NewStorage (internal/storage)

```go
func NewStorage(dsn string, dbConnector DatabaseConnector, migrateConnector MigrateConnector) (*Storage, error) {
    _, err := dbConnector.Open("pgx", dsn)
    if err != nil { return nil, fmt.Errorf("failed to open database: %w", err) }
    if err := dbConnector.Ping(); err != nil { return nil, fmt.Errorf("database ping failed: %w", err) }
    return &Storage{db: dbConnector, migrateConnector: migrateConnector, dsn: dsn}, nil
}
```
The connector is modelled by the outcomes its `Open` and `Ping` calls
would produce. -/

structure DBConnEnv where
  openErr : Option String
  pingErr : Option String
deriving DecidableEq

/-- The `Storage` value `NewStorage` builds on success. -/
structure StorageHandle where
  dsn : String
deriving DecidableEq

def NewStorage (dsn : String) (c : DBConnEnv) :
    Option StorageHandle × Option String :=
  match c.openErr with
  | some e => (none, some ("failed to open database: " ++ e))
  | none =>
    match c.pingErr with
    | some e => (none, some ("database ping failed: " ++ e))
    | none => (some ⟨dsn⟩, none)

/-! ## Migrate (internal/storage)

```go
func (s *Storage) Migrate(migrationsPath string) error {
    if strings.TrimSpace(migrationsPath) == "" { return errors.New("migrations path cannot be empty") }
    if !strings.HasPrefix(migrationsPath, "/") { migrationsPath = "/" + migrationsPath }
    migrationDSN := strings.Split(s.dsn, "?")[0]
    migrationDSN += "?x-migrations-table=schema_migrations"
    _, err := s.migrateConnector.New("file://"+migrationsPath, migrationDSN)
    if err != nil { return fmt.Errorf("migration init failed: %w", err) }
    if err := s.migrateConnector.Up(); err != nil && !errors.Is(err, migrate.ErrNoChange) {
        return fmt.Errorf("migration up failed: %w", err)
    }
    return nil
}
```
-/

/-- Go `strings.TrimSpace`, on the whitespace the claims exercise. -/
def trimSpace (s : String) : String :=
  ⟨((s.toList.dropWhile Char.isWhitespace).reverse.dropWhile
      Char.isWhitespace).reverse⟩

/-- Go `strings.Split(s, "?")[0]`: the prefix before the first `?`. -/
def beforeQuery (s : String) : String :=
  ⟨s.toList.takeWhile (fun c => c != '?')⟩

/-- Go `strings.HasPrefix(s, "/")`. -/
def startsWithSlash (s : String) : Bool :=
  match s.toList with
  | '/' :: _ => true
  | _ => false

/-- Outcome of the external migration runner's `Up`. -/
inductive UpOutcome where
  | applied
  | noChange
  | failed (msg : String)
deriving DecidableEq

/-- The migrate connector, modelled by the outcome `New` would produce
and by the error, if any, that applying a pending migration would hit. -/
structure MigrateEnv where
  newErr : Option String
  applyErr : Option String
deriving DecidableEq

/-- Modelled from the spec: the external migration runner (golang-migrate)
is not part of this repository; per the spec, `Up` applies all pending
migrations in order and reports a no-change outcome (ErrNoChange) when
none are pending.  The migration state is the number of pending
migrations; a successful apply leaves none pending. -/
def runUp (pending : Nat) (applyErr : Option String) : UpOutcome × Nat :=
  if pending = 0 then (.noChange, 0)
  else
    match applyErr with
    | some e => (.failed e, pending)
    | none => (.applied, 0)

/-- `Storage.Migrate`; returns the error, if any, and the resulting
migration state. -/
def Migrate (env : MigrateEnv) (dsn : String) (migrationsPath : String)
    (pending : Nat) : Option String × Nat :=
  if trimSpace migrationsPath = "" then
    (some "migrations path cannot be empty", pending)
  else
    let path :=
      if startsWithSlash migrationsPath then migrationsPath
      else "/" ++ migrationsPath
    let migrationDSN :=
      beforeQuery dsn ++ "?x-migrations-table=schema_migrations"
    let sourceURL := "file://" ++ path
    match env.newErr with
    | some e =>
      let _ := (sourceURL, migrationDSN)
      (some ("migration init failed: " ++ e), pending)
    | none =>
      match runUp pending env.applyErr with
      | (.noChange, p) => (none, p)
      | (.applied, p) => (none, p)
      | (.failed e, p) => (some ("migration up failed: " ++ e), p)

/-! ## HandleSignals shutdown wait (internal/utils)

```go
ctx, cancel := context.WithTimeout(context.Background(), 10*time.Second)
defer cancel()
go func() { grpcServer.GracefulStop() }()
select {
case <-ctx.Done():
    logger.Warn("Shutdown timed out, forcing exit")
case <-time.After(10 * time.Second):
    logger.Info("Server stopped gracefully")
}
```
After the signal, the select races exactly two events: the context
deadline (a fixed 10 s timer) and `time.After(10 s)` (another fixed 10 s
timer).  The completion of `GracefulStop` — the moment the transport
confirms quiescence, `quiesceTime` seconds after the signal — is not
among the raced events.  The wait returns at the earliest raced event. -/

def shutdownCtxTimeout : Nat := 10

def shutdownAfterTimer : Nat := 10

/-- Firing times (seconds after the signal) of the events the code's
select actually waits on; `quiesceTime` does not appear. -/
def handleSignalsRacedEvents (quiesceTime : Nat) : List Nat :=
  let _ := quiesceTime
  [shutdownCtxTimeout, shutdownAfterTimer]

/-- Seconds after the signal at which `HandleSignals`'s select returns. -/
def handleSignalsReturnTime (quiesceTime : Nat) : Nat :=
  (handleSignalsRacedEvents quiesceTime).foldr min shutdownCtxTimeout

/-- Modelled from the spec: the shutdown wait the spec requires — start
the graceful stop, obtain its single completion signal, and race that one
signal against one grace-period deadline, returning at whichever is
observed first. -/
def specShutdownReturnTime (quiesceTime : Nat) : Nat :=
  min quiesceTime shutdownCtxTimeout

/-! ## HealthService (internal/utils)

```go
func (s *HealthService) Check(ctx context.Context, req *health.HealthCheckRequest) (*health.HealthCheckResponse, error) {
    return &health.HealthCheckResponse{Status: health.HealthCheckResponse_SERVING}, nil
}
func (s *HealthService) Watch(req *health.HealthCheckRequest, stream health.Health_WatchServer) error {
    return status.Error(codes.Unimplemented, "unimplemented")
}
```
-/

/-- The request-scoped context as the health service could observe it. -/
structure Context where
  cancelled : Bool
deriving DecidableEq

structure HealthCheckRequest where
  service : String
deriving DecidableEq

inductive ServingStatus where
  | UNKNOWN
  | SERVING
  | NOT_SERVING
  | SERVICE_UNKNOWN
deriving DecidableEq

structure HealthCheckResponse where
  status : ServingStatus
deriving DecidableEq

inductive GrpcCode where
  | ok
  | unimplemented
deriving DecidableEq

structure GrpcError where
  code : GrpcCode
  msg : String
deriving DecidableEq

/-- The `HealthService` struct is empty: it holds no repository, pipeline
or transport state. -/
structure HealthService where
deriving DecidableEq

def HealthService.Check (s : HealthService) (ctx : Context)
    (req : HealthCheckRequest) : HealthCheckResponse × Option GrpcError :=
  let _ := (s, ctx, req)
  (⟨.SERVING⟩, none)

def HealthService.Watch (s : HealthService) (req : HealthCheckRequest)
    (stream : Unit) : Option GrpcError :=
  let _ := (s, req, stream)
  some ⟨.unimplemented, "unimplemented"⟩

/-! ## Theorems -/

/-- C1: for every upstream response with status 200 whose order book has
non-empty asks and bids and whose first ask and first bid entries each
parse to two finite numbers, `GetRateFromExchange` returns success with
`ask`/`bid` equal to the parsed price fields of `asks[0]`/`bids[0]`,
calls `SaveRate` exactly once, and persists exactly one row with those
values and a timestamp between fetch start and response return (the clock
hypotheses say the `time.Now()` reading is monotone within the call). -/
theorem C1_success_persists_one_row
    (env : PipelineEnv) (resp : HTTPResponse) (depth : BinanceDepthResponse)
    (a0 b0 : List String) (restA restB : List (List String))
    (pa va pb vb : DecValue)
    (hreq : env.createReqErr = none)
    (hfetch : env.fetchResult = Except.ok resp)
    (hstatus : resp.statusCode = httpStatusOK)
    (hbody : resp.bodyDecode = Except.ok depth)
    (hasks : depth.asks = a0 :: restA)
    (hbids : depth.bids = b0 :: restB)
    (hask0 : processOrder a0 = Except.ok (.finite pa, .finite va))
    (hbid0 : processOrder b0 = Except.ok (.finite pb, .finite vb))
    (hsave : env.saveRateErr = none)
    (hclock1 : env.tFetchStart ≤ env.tNow)
    (hclock2 : env.tNow ≤ env.tReturn) :
    (GetRateFromExchange env).err = none ∧
    (GetRateFromExchange env).resp =
      some ⟨true, .finite pa, .finite pb, .finite vb, .finite va,
        env.tNow⟩ ∧
    (GetRateFromExchange env).saveCalls.length = 1 ∧
    (GetRateFromExchange env).persisted =
      [⟨.finite pa, .finite pb, .finite vb, .finite va, env.tNow⟩] ∧
    env.tFetchStart ≤ env.tNow ∧ env.tNow ≤ env.tReturn := by
  have h : GetRateFromExchange env =
      ⟨some ⟨true, .finite pa, .finite pb, .finite vb, .finite va,
        env.tNow⟩, none, true,
       [⟨.finite pa, .finite pb, .finite vb, .finite va, env.tNow⟩],
       [⟨.finite pa, .finite pb, .finite vb, .finite va, env.tNow⟩]⟩ := by
    simp [GetRateFromExchange, hreq, hfetch, hstatus, hbody, hasks, hbids,
      hask0, hbid0, hsave]
  rw [h]
  exact ⟨rfl, rfl, rfl, rfl, hclock1, hclock2⟩

/-- C1 witness at the concrete successful run. -/
theorem C1_witness :
    (GetRateFromExchange
        ⟨none, Except.ok ⟨200, "200 OK",
          Except.ok ⟨1, [["49900.0", "2.0"]], [["50000.0", "1.5"]]⟩⟩,
         none, 0, 5, 9⟩).err = none ∧
    (GetRateFromExchange
        ⟨none, Except.ok ⟨200, "200 OK",
          Except.ok ⟨1, [["49900.0", "2.0"]], [["50000.0", "1.5"]]⟩⟩,
         none, 0, 5, 9⟩).resp =
      some ⟨true, .finite ⟨500000, 1⟩, .finite ⟨499000, 1⟩,
        .finite ⟨20, 1⟩, .finite ⟨15, 1⟩, 5⟩ ∧
    (GetRateFromExchange
        ⟨none, Except.ok ⟨200, "200 OK",
          Except.ok ⟨1, [["49900.0", "2.0"]], [["50000.0", "1.5"]]⟩⟩,
         none, 0, 5, 9⟩).saveCalls.length = 1 ∧
    (GetRateFromExchange
        ⟨none, Except.ok ⟨200, "200 OK",
          Except.ok ⟨1, [["49900.0", "2.0"]], [["50000.0", "1.5"]]⟩⟩,
         none, 0, 5, 9⟩).persisted =
      [⟨.finite ⟨500000, 1⟩, .finite ⟨499000, 1⟩, .finite ⟨20, 1⟩,
        .finite ⟨15, 1⟩, 5⟩] ∧
    (0 : Nat) ≤ 5 ∧ (5 : Nat) ≤ 9 :=
  C1_success_persists_one_row
    ⟨none, Except.ok ⟨200, "200 OK",
      Except.ok ⟨1, [["49900.0", "2.0"]], [["50000.0", "1.5"]]⟩⟩,
     none, 0, 5, 9⟩
    ⟨200, "200 OK", Except.ok ⟨1, [["49900.0", "2.0"]], [["50000.0", "1.5"]]⟩⟩
    ⟨1, [["49900.0", "2.0"]], [["50000.0", "1.5"]]⟩
    ["50000.0", "1.5"] ["49900.0", "2.0"] [] []
    ⟨500000, 1⟩ ⟨15, 1⟩ ⟨499000, 1⟩ ⟨20, 1⟩
    rfl rfl rfl rfl rfl rfl (by decide) (by decide) rfl
    (by decide) (by decide)

/-- C2: on every successful invocation the persisted and returned
`askAmount` is the parsed volume of the best bid entry `bids[0]` (`vb`)
and `bidAmount` is the parsed volume of the best ask entry `asks[0]`
(`va`) — the amount labels are cross-wired relative to their price
counterparts. -/
theorem C2_amounts_cross_wired
    (env : PipelineEnv) (resp : HTTPResponse) (depth : BinanceDepthResponse)
    (a0 b0 : List String) (restA restB : List (List String))
    (pa va pb vb : DecValue)
    (hreq : env.createReqErr = none)
    (hfetch : env.fetchResult = Except.ok resp)
    (hstatus : resp.statusCode = httpStatusOK)
    (hbody : resp.bodyDecode = Except.ok depth)
    (hasks : depth.asks = a0 :: restA)
    (hbids : depth.bids = b0 :: restB)
    (hask0 : processOrder a0 = Except.ok (.finite pa, .finite va))
    (hbid0 : processOrder b0 = Except.ok (.finite pb, .finite vb))
    (hsave : env.saveRateErr = none) :
    (∀ r, (GetRateFromExchange env).resp = some r →
      r.askAmount = .finite vb ∧ r.bidAmount = .finite va ∧
      r.ask = .finite pa ∧ r.bid = .finite pb) ∧
    (GetRateFromExchange env).persisted =
      [⟨.finite pa, .finite pb, .finite vb, .finite va, env.tNow⟩] := by
  have h : GetRateFromExchange env =
      ⟨some ⟨true, .finite pa, .finite pb, .finite vb, .finite va,
        env.tNow⟩, none, true,
       [⟨.finite pa, .finite pb, .finite vb, .finite va, env.tNow⟩],
       [⟨.finite pa, .finite pb, .finite vb, .finite va, env.tNow⟩]⟩ := by
    simp [GetRateFromExchange, hreq, hfetch, hstatus, hbody, hasks, hbids,
      hask0, hbid0, hsave]
  rw [h]
  refine ⟨?_, rfl⟩
  intro r hr
  cases hr
  exact ⟨rfl, rfl, rfl, rfl⟩

/-- C2 witness: the claim's concrete scenario
`{"asks":[["100.0","1.0"]],"bids":[["99.0","2.0"]]}` yields the persisted
row `(ask=100, bid=99, ask_amount=2, bid_amount=1)` (values given by
`DecValue.toRat`) and a success response with matching fields. -/
theorem C2_witness :
    ((∀ r, (GetRateFromExchange
        ⟨none, Except.ok ⟨200, "200 OK",
          Except.ok ⟨1, [["99.0", "2.0"]], [["100.0", "1.0"]]⟩⟩,
         none, 0, 5, 9⟩).resp = some r →
      r.askAmount = .finite ⟨20, 1⟩ ∧ r.bidAmount = .finite ⟨10, 1⟩ ∧
      r.ask = .finite ⟨1000, 1⟩ ∧ r.bid = .finite ⟨990, 1⟩) ∧
    (GetRateFromExchange
        ⟨none, Except.ok ⟨200, "200 OK",
          Except.ok ⟨1, [["99.0", "2.0"]], [["100.0", "1.0"]]⟩⟩,
         none, 0, 5, 9⟩).persisted =
      [⟨.finite ⟨1000, 1⟩, .finite ⟨990, 1⟩, .finite ⟨20, 1⟩,
        .finite ⟨10, 1⟩, 5⟩]) ∧
    (DecValue.mk 1000 1).toRat = 100 ∧ (DecValue.mk 990 1).toRat = 99 ∧
    (DecValue.mk 20 1).toRat = 2 ∧ (DecValue.mk 10 1).toRat = 1 :=
  ⟨C2_amounts_cross_wired
      ⟨none, Except.ok ⟨200, "200 OK",
        Except.ok ⟨1, [["99.0", "2.0"]], [["100.0", "1.0"]]⟩⟩,
       none, 0, 5, 9⟩
      ⟨200, "200 OK", Except.ok ⟨1, [["99.0", "2.0"]], [["100.0", "1.0"]]⟩⟩
      ⟨1, [["99.0", "2.0"]], [["100.0", "1.0"]]⟩
      ["100.0", "1.0"] ["99.0", "2.0"] [] []
      ⟨1000, 1⟩ ⟨10, 1⟩ ⟨990, 1⟩ ⟨20, 1⟩
      rfl rfl rfl rfl rfl rfl (by decide) (by decide) rfl,
   by norm_num [DecValue.toRat], by norm_num [DecValue.toRat],
   by norm_num [DecValue.toRat], by norm_num [DecValue.toRat]⟩

/-- C3: whenever the decoded order book has empty asks or empty bids
(each alone suffices), `GetRateFromExchange` returns the empty-book
error, returns no response object, never calls `SaveRate`, and persists
nothing. -/
theorem C3_empty_book_fails_no_persist
    (env : PipelineEnv) (resp : HTTPResponse) (depth : BinanceDepthResponse)
    (hreq : env.createReqErr = none)
    (hfetch : env.fetchResult = Except.ok resp)
    (hstatus : resp.statusCode = httpStatusOK)
    (hbody : resp.bodyDecode = Except.ok depth)
    (hempty : depth.asks = [] ∨ depth.bids = []) :
    (GetRateFromExchange env).err = some "empty response from binance" ∧
    (GetRateFromExchange env).resp = none ∧
    (GetRateFromExchange env).saveCalls = [] ∧
    (GetRateFromExchange env).persisted = [] := by
  have h : GetRateFromExchange env =
      ⟨none, some "empty response from binance", true, [], []⟩ := by
    rcases hempty with h | h <;>
      simp [GetRateFromExchange, hreq, hfetch, hstatus, hbody, h]
  rw [h]
  exact ⟨rfl, rfl, rfl, rfl⟩

/-- C3 witness at `{"asks":[],"bids":[]}`. -/
theorem C3_witness :
    (GetRateFromExchange
        ⟨none, Except.ok ⟨200, "200 OK", Except.ok ⟨1, [], []⟩⟩,
         none, 0, 5, 9⟩).err = some "empty response from binance" ∧
    (GetRateFromExchange
        ⟨none, Except.ok ⟨200, "200 OK", Except.ok ⟨1, [], []⟩⟩,
         none, 0, 5, 9⟩).resp = none ∧
    (GetRateFromExchange
        ⟨none, Except.ok ⟨200, "200 OK", Except.ok ⟨1, [], []⟩⟩,
         none, 0, 5, 9⟩).saveCalls = [] ∧
    (GetRateFromExchange
        ⟨none, Except.ok ⟨200, "200 OK", Except.ok ⟨1, [], []⟩⟩,
         none, 0, 5, 9⟩).persisted = [] :=
  C3_empty_book_fails_no_persist
    ⟨none, Except.ok ⟨200, "200 OK", Except.ok ⟨1, [], []⟩⟩, none, 0, 5, 9⟩
    ⟨200, "200 OK", Except.ok ⟨1, [], []⟩⟩ ⟨1, [], []⟩
    rfl rfl rfl rfl (Or.inl rfl)

/-- C4: an order entry with fewer than two elements fails with the
`invalid order format` error, and a non-numeric price or volume string
fails with a message naming the field (`price parsing error` /
`volume parsing error`); in the pipeline, such a failure on `asks[0]` or
`bids[0]` is wrapped with the failing side, `SaveRate` is never called
and nothing is persisted. -/
theorem C4_malformed_order_fails
    (env : PipelineEnv) (resp : HTTPResponse) (depth : BinanceDepthResponse)
    (a0 b0 : List String) (restA restB : List (List String))
    (hreq : env.createReqErr = none)
    (hfetch : env.fetchResult = Except.ok resp)
    (hstatus : resp.statusCode = httpStatusOK)
    (hbody : resp.bodyDecode = Except.ok depth)
    (hasks : depth.asks = a0 :: restA)
    (hbids : depth.bids = b0 :: restB) :
    (∀ order : List String, order.length < 2 →
      processOrder order = Except.error "invalid order format") ∧
    (∀ (p v : String) (rest : List String), parseFloat p = none →
      processOrder (p :: v :: rest) = Except.error "price parsing error") ∧
    (∀ (p v : String) (rest : List String) (x : GoFloat),
      parseFloat p = some x → parseFloat v = none →
      processOrder (p :: v :: rest) = Except.error "volume parsing error") ∧
    (∀ e, processOrder a0 = Except.error e →
      (GetRateFromExchange env).err = some ("ask processing failed: " ++ e) ∧
      (GetRateFromExchange env).resp = none ∧
      (GetRateFromExchange env).saveCalls = [] ∧
      (GetRateFromExchange env).persisted = []) ∧
    (∀ (pa va : GoFloat) (e : String),
      processOrder a0 = Except.ok (pa, va) →
      processOrder b0 = Except.error e →
      (GetRateFromExchange env).err = some ("bid processing failed: " ++ e) ∧
      (GetRateFromExchange env).resp = none ∧
      (GetRateFromExchange env).saveCalls = [] ∧
      (GetRateFromExchange env).persisted = []) := by
  refine ⟨?_, ?_, ?_, ?_, ?_⟩
  · intro order hlen
    rcases order with _ | ⟨p, _ | ⟨v, rest⟩⟩
    · rfl
    · rfl
    · simp at hlen
      omega
  · intro p v rest hp
    simp [processOrder, hp]
  · intro p v rest x hp hv
    simp [processOrder, hp, hv]
  · intro e he
    have h : GetRateFromExchange env =
        ⟨none, some ("ask processing failed: " ++ e), true, [], []⟩ := by
      simp [GetRateFromExchange, hreq, hfetch, hstatus, hbody, hasks, hbids,
        he]
    rw [h]
    exact ⟨rfl, rfl, rfl, rfl⟩
  · intro pa va e ha he
    have h : GetRateFromExchange env =
        ⟨none, some ("bid processing failed: " ++ e), true, [], []⟩ := by
      simp [GetRateFromExchange, hreq, hfetch, hstatus, hbody, hasks, hbids,
        ha, he]
    rw [h]
    exact ⟨rfl, rfl, rfl, rfl⟩

/-- C4 witness: a short entry `["50000.0"]` in `asks[0]`. -/
theorem C4_witness :
    (GetRateFromExchange
        ⟨none, Except.ok ⟨200, "200 OK",
          Except.ok ⟨1, [["49900.0", "2.0"]], [["50000.0"]]⟩⟩,
         none, 0, 5, 9⟩).err =
      some ("ask processing failed: " ++ "invalid order format") :=
  ((C4_malformed_order_fails
      ⟨none, Except.ok ⟨200, "200 OK",
        Except.ok ⟨1, [["49900.0", "2.0"]], [["50000.0"]]⟩⟩,
       none, 0, 5, 9⟩
      ⟨200, "200 OK", Except.ok ⟨1, [["49900.0", "2.0"]], [["50000.0"]]⟩⟩
      ⟨1, [["49900.0", "2.0"]], [["50000.0"]]⟩
      ["50000.0"] ["49900.0", "2.0"] [] []
      rfl rfl rfl rfl rfl rfl).2.2.2.1
    "invalid order format" (by decide)).1

/-- C5: every upstream response whose status is not 200 makes
`GetRateFromExchange` fail with an error carrying the response status
text; the body is never decoded, no response object is returned, and no
repository call is made. -/
theorem C5_non_ok_status_fails_no_decode
    (env : PipelineEnv) (resp : HTTPResponse)
    (hreq : env.createReqErr = none)
    (hfetch : env.fetchResult = Except.ok resp)
    (hstatus : resp.statusCode ≠ httpStatusOK) :
    (GetRateFromExchange env).err =
      some ("binance API returned status: " ++ resp.status) ∧
    (GetRateFromExchange env).resp = none ∧
    (GetRateFromExchange env).decodeAttempted = false ∧
    (GetRateFromExchange env).saveCalls = [] ∧
    (GetRateFromExchange env).persisted = [] := by
  have h : GetRateFromExchange env =
      ⟨none, some ("binance API returned status: " ++ resp.status),
       false, [], []⟩ := by
    simp [GetRateFromExchange, hreq, hfetch, hstatus]
  rw [h]
  exact ⟨rfl, rfl, rfl, rfl, rfl⟩

/-- C5 witness at an upstream 500. -/
theorem C5_witness :
    (GetRateFromExchange
        ⟨none, Except.ok ⟨500, "500 Internal Server Error",
          Except.error "unread body"⟩, none, 0, 5, 9⟩).err =
      some ("binance API returned status: " ++ "500 Internal Server Error") ∧
    (GetRateFromExchange
        ⟨none, Except.ok ⟨500, "500 Internal Server Error",
          Except.error "unread body"⟩, none, 0, 5, 9⟩).resp = none ∧
    (GetRateFromExchange
        ⟨none, Except.ok ⟨500, "500 Internal Server Error",
          Except.error "unread body"⟩, none, 0, 5, 9⟩).decodeAttempted =
      false ∧
    (GetRateFromExchange
        ⟨none, Except.ok ⟨500, "500 Internal Server Error",
          Except.error "unread body"⟩, none, 0, 5, 9⟩).saveCalls = [] ∧
    (GetRateFromExchange
        ⟨none, Except.ok ⟨500, "500 Internal Server Error",
          Except.error "unread body"⟩, none, 0, 5, 9⟩).persisted = [] :=
  C5_non_ok_status_fails_no_decode
    ⟨none, Except.ok ⟨500, "500 Internal Server Error",
      Except.error "unread body"⟩, none, 0, 5, 9⟩
    ⟨500, "500 Internal Server Error", Except.error "unread body"⟩
    rfl rfl (by decide)

/-- C6: every invocation either fails with an error and no response
object, or succeeds with no error and a response whose success flag is
set — never a partially populated response mixed with an error. -/
theorem C6_no_partial_result (env : PipelineEnv) :
    ((GetRateFromExchange env).resp = none ∧
      ∃ e, (GetRateFromExchange env).err = some e) ∨
    ((GetRateFromExchange env).err = none ∧
      ∃ r, (GetRateFromExchange env).resp = some r ∧ r.success = true) := by
  cases hcr : env.createReqErr with
  | some e => left; simp [GetRateFromExchange, hcr]
  | none =>
  cases hfr : env.fetchResult with
  | error e => left; simp [GetRateFromExchange, hcr, hfr]
  | ok resp =>
  by_cases hs : resp.statusCode = httpStatusOK
  case neg => left; simp [GetRateFromExchange, hcr, hfr, hs]
  case pos =>
  cases hbd : resp.bodyDecode with
  | error e => left; simp [GetRateFromExchange, hcr, hfr, hs, hbd]
  | ok depth =>
  by_cases he : depth.asks.length = 0 ∨ depth.bids.length = 0
  case pos =>
    left
    rcases he with h | h <;> simp [GetRateFromExchange, hcr, hfr, hs, hbd, h]
  case neg =>
  rw [not_or] at he
  obtain ⟨he1, he2⟩ := he
  have hA0 : depth.asks ≠ [] := fun h => he1 (by simp [h])
  have hB0 : depth.bids ≠ [] := fun h => he2 (by simp [h])
  obtain ⟨a0, restA, hA⟩ := List.exists_cons_of_ne_nil hA0
  obtain ⟨b0, restB, hB⟩ := List.exists_cons_of_ne_nil hB0
  cases hpo : processOrder a0 with
  | error e =>
    left; simp [GetRateFromExchange, hcr, hfr, hs, hbd, hA, hB, hpo]
  | ok pv =>
  obtain ⟨pa, va⟩ := pv
  cases hpo2 : processOrder b0 with
  | error e =>
    left
    simp [GetRateFromExchange, hcr, hfr, hs, hbd, hA, hB, hpo, hpo2]
  | ok qv =>
  obtain ⟨pb, vb⟩ := qv
  cases hse : env.saveRateErr with
  | some e =>
    left
    simp [GetRateFromExchange, hcr, hfr, hs, hbd, hA, hB, hpo, hpo2, hse]
  | none =>
    right
    simp [GetRateFromExchange, hcr, hfr, hs, hbd, hA, hB, hpo, hpo2, hse]

/-- C7: `Migrate` is idempotent — with a valid migrations path and a
healthy migration source, invoking it when no migrations are pending
succeeds (the runner's no-change outcome is treated as success), and
invoking it twice in a row with no schema drift between the calls
succeeds both times, from any number of pending migrations. -/
theorem C7_migrate_idempotent
    (env : MigrateEnv) (dsn path : String) (pending : Nat)
    (hpath : trimSpace path ≠ "")
    (hnew : env.newErr = none)
    (happly : env.applyErr = none) :
    (Migrate env dsn path 0).1 = none ∧
    (Migrate env dsn path pending).1 = none ∧
    (Migrate env dsn path (Migrate env dsn path pending).2).1 = none := by
  have h0 : ∀ n, Migrate env dsn path n = (none, 0) := by
    intro n
    by_cases hn : n = 0
    · subst hn
      simp [Migrate, hpath, hnew, runUp]
    · simp [Migrate, hpath, hnew, runUp, hn, happly]
  rw [h0 0, h0 pending, h0]
  exact ⟨rfl, rfl, rfl⟩

/-- C7 witness: two consecutive runs from three pending migrations. -/
theorem C7_witness :
    (Migrate ⟨none, none⟩ "postgres://u:p@h:5432/db?sslmode=disable"
      "migrations" 0).1 = none ∧
    (Migrate ⟨none, none⟩ "postgres://u:p@h:5432/db?sslmode=disable"
      "migrations" 3).1 = none ∧
    (Migrate ⟨none, none⟩ "postgres://u:p@h:5432/db?sslmode=disable"
      "migrations"
      (Migrate ⟨none, none⟩ "postgres://u:p@h:5432/db?sslmode=disable"
        "migrations" 3).2).1 = none :=
  C7_migrate_idempotent ⟨none, none⟩
    "postgres://u:p@h:5432/db?sslmode=disable" "migrations" 3
    (by decide) rfl rfl

/-- C8: `NewStorage` opens the connection and then probes it; if either
step fails it returns no repository object and an error wrapping the
underlying failure (the open failure is reported first, so the probe
error can only be reported when the open succeeded). -/
theorem C8_newstorage_no_partial_open
    (dsn : String) (c : DBConnEnv) (e : String)
    (h : c.openErr = some e ∨ (c.openErr = none ∧ c.pingErr = some e)) :
    (NewStorage dsn c).1 = none ∧
    (c.openErr = some e →
      (NewStorage dsn c).2 = some ("failed to open database: " ++ e)) ∧
    (c.openErr = none → c.pingErr = some e →
      (NewStorage dsn c).2 = some ("database ping failed: " ++ e)) := by
  rcases h with h | ⟨h1, h2⟩
  · refine ⟨by simp [NewStorage, h], fun _ => by simp [NewStorage, h], ?_⟩
    intro h'
    rw [h] at h'
    cases h'
  · refine ⟨by simp [NewStorage, h1, h2], ?_,
      fun _ _ => by simp [NewStorage, h1, h2]⟩
    intro h'
    rw [h1] at h'
    cases h'

/-- C8 witness: a failing liveness probe after a successful open. -/
theorem C8_witness :
    (NewStorage "postgres://u:p@h:5432/db?sslmode=disable"
      ⟨none, some "connection refused"⟩).1 = none ∧
    ((DBConnEnv.mk none (some "connection refused")).openErr =
        some "connection refused" →
      (NewStorage "postgres://u:p@h:5432/db?sslmode=disable"
        ⟨none, some "connection refused"⟩).2 =
        some ("failed to open database: " ++ "connection refused")) ∧
    ((DBConnEnv.mk none (some "connection refused")).openErr = none →
      (DBConnEnv.mk none (some "connection refused")).pingErr =
        some "connection refused" →
      (NewStorage "postgres://u:p@h:5432/db?sslmode=disable"
        ⟨none, some "connection refused"⟩).2 =
        some ("database ping failed: " ++ "connection refused")) :=
  C8_newstorage_no_partial_open "postgres://u:p@h:5432/db?sslmode=disable"
    ⟨none, some "connection refused"⟩ "connection refused"
    (Or.inr ⟨rfl, rfl⟩)

/-- C9: the shutdown wait of `HandleSignals` races exactly two
independent fixed 10-second timers (the context deadline and
`time.After`); the moment the transport confirms quiescence is not among
the raced events, so the wait always returns at 10 seconds — whereas the
behaviour the claim describes (one completion signal from the graceful
stop raced against one deadline) returns at 1 second when quiescence is
confirmed 1 second after the signal. -/
theorem C9_shutdown_races_two_fixed_timers :
    (∀ q : Nat, handleSignalsRacedEvents q =
      [shutdownCtxTimeout, shutdownAfterTimer]) ∧
    (∀ q : Nat, handleSignalsReturnTime q = 10) ∧
    handleSignalsReturnTime 1 = 10 ∧
    specShutdownReturnTime 1 = 1 :=
  ⟨fun _ => rfl, fun _ => rfl, rfl, rfl⟩

/-- C10: the health `Check` operation returns SERVING with no error for
every receiver, context and request — its result does not depend on any
of them, for the `HealthService` holds no state at all — and `Watch`
returns the Unimplemented error on every call. -/
theorem C10_health_always_serving :
    (∀ (s : HealthService) (ctx : Context) (req : HealthCheckRequest),
      s.Check ctx req = (⟨ServingStatus.SERVING⟩, none)) ∧
    (∀ (s s2 : HealthService) (ctx ctx2 : Context)
      (req req2 : HealthCheckRequest),
      s.Check ctx req = s2.Check ctx2 req2) ∧
    (∀ (s : HealthService) (req : HealthCheckRequest) (stream : Unit),
      s.Watch req stream = some ⟨GrpcCode.unimplemented, "unimplemented"⟩) :=
  ⟨fun _ _ _ => rfl, fun _ _ _ _ _ _ => rfl, fun _ _ _ => rfl⟩

end GRPCUSDT
